import Mathlib

/-!
Shallow embedding of `pl_bolts/models/gans/srgan/srresnet_module.py` and
`pl_bolts/datamodules/__init__.py`, with theorems settling the stated
properties of the model adapter (`SRResNet`), the CLI driver (`cli_main`),
and the datamodule package namespace.

Tensors are modelled as flat lists of rational entries.  Methods that the
Python object system threads through mutable `self` state are embedded in
state-passing style: each returns its result together with the adapter
state it leaves behind, and logging calls are returned as an explicit list
of log entries.  The external orchestrator (`pytorch_lightning.Trainer`)
and the external numeric library are modelled only through the interfaces
this excerpt uses: the `fit` call is an arbitrary function from the model
adapter to a trained adapter and a final global step count.
-/

namespace SRGAN

/-- Modelled from the spec: the generator component
`pl_bolts.models.gans.srgan.components.SRGANGenerator` is not part of the
excerpt.  The spec describes it as "a fixed-topology feed-forward
transformation from a low-resolution image tensor to a high-resolution image
tensor" with learned parameters whose count is deterministic given
`image_channels` and `feature_maps`.  `Components` packages the two facts the
excerpt uses about it: how its parameter tensors are initialized from the two
size options, and how the network maps an input tensor through its current
parameters.  Every universally stated theorem below holds for every such
instantiation. -/
structure Components where
  initParams : ℕ → ℕ → List ℚ
  runNet : ℕ → ℕ → List ℚ → List ℚ → List ℚ

/-- The generator network object owned by the model adapter: the two size
options it was constructed with and its current (learned) parameter entries. -/
structure SRGANGenerator where
  image_channels : ℕ
  feature_maps : ℕ
  params : List ℚ
deriving DecidableEq

/-- Applying the generator network to an input tensor
(Python `self.srresnet(x)`). -/
def SRGANGenerator.run (C : Components) (g : SRGANGenerator) (x : List ℚ) :
    List ℚ :=
  C.runNet g.image_channels g.feature_maps g.params x

/-- `parameters()` of the generator network: its parameter entries. -/
def SRGANGenerator.parameters (g : SRGANGenerator) : List ℚ :=
  g.params

/-- The hyperparameter set recorded by `self.save_hyperparameters()`.
`save_hyperparameters` itself belongs to the external orchestrator library
(`pytorch_lightning`), out of scope of the repository; the spec's data model
fixes its content: "an immutable mapping from option name to scalar value
(image channel count, feature-map width, learning rate), fixed at
model-adapter construction". -/
structure Hyperparameters where
  image_channels : ℕ
  feature_maps : ℕ
  learning_rate : ℚ
deriving DecidableEq

/-- The model adapter `SRResNet`: the recorded hyperparameters and the owned
generator network `self.srresnet`. -/
structure SRResNet where
  hparams : Hyperparameters
  srresnet : SRGANGenerator
deriving DecidableEq

/-- `SRResNet.__init__(image_channels, feature_maps, learning_rate, **kwargs)`:
records the hyperparameter set via `save_hyperparameters()` (see
`Hyperparameters`) and builds the owned generator
`SRGANGenerator(self.hparams.image_channels, self.hparams.feature_maps)`.
The `kwargs` argument embeds Python's `**kwargs`, which absorbs any extra
keyword options. -/
def SRResNet.init (C : Components) (image_channels : ℕ) (feature_maps : ℕ)
    (learning_rate : ℚ) (kwargs : List (String × ℚ)) : SRResNet :=
  let _ := kwargs
  { hparams := { image_channels := image_channels, feature_maps := feature_maps,
                 learning_rate := learning_rate },
    srresnet := { image_channels := image_channels, feature_maps := feature_maps,
                  params := C.initParams image_channels feature_maps } }

/-- `SRResNet.forward(x)`: `return self.srresnet(x)`.  The method body contains
a single return and no assignment, so the adapter state it leaves behind is
the one it received. -/
def SRResNet.forward (C : Components) (m : SRResNet) (x : List ℚ) :
    List ℚ × SRResNet :=
  (m.srresnet.run C x, m)

/-- `torch.nn.functional.mse_loss(input, target)` with the default mean
reduction: the mean of the elementwise squared differences. -/
def mse_loss (input target : List ℚ) : ℚ :=
  (List.zipWith (fun a b => (a - b) ^ 2) input target).sum / (input.length : ℚ)

/-- One call to `self.log(name, value, on_step, on_epoch)`. -/
structure LogEntry where
  name : String
  value : ℚ
  on_step : Bool
  on_epoch : Bool
deriving DecidableEq

/-- `SRResNet.training_step(batch, batch_idx)`: unpacks the batch as
`hr_image, lr_image`, computes `fake = self(lr_image)` (which dispatches to
`forward`), takes `loss = F.mse_loss(hr_image, fake)`, calls
`self.log("loss", loss, on_step=True, on_epoch=True)`, and returns `loss`.
The value is the returned loss, the emitted log calls, and the adapter state
left behind. -/
def SRResNet.training_step (C : Components) (m : SRResNet)
    (batch : List ℚ × List ℚ) (batch_idx : ℕ) :
    ℚ × List LogEntry × SRResNet :=
  let _ := batch_idx
  let hr_image := batch.1
  let lr_image := batch.2
  let fwd := m.forward C lr_image
  let fake := fwd.1
  let loss := mse_loss hr_image fake
  (loss, [{ name := "loss", value := loss, on_step := true, on_epoch := true }],
   fwd.2)

/-- The variant of a gradient-descent optimizer. -/
inductive OptimizerKind where
  | adam
  | sgd
deriving DecidableEq

/-- An optimizer object: its variant, its learning rate, and the parameter
entries it optimizes. -/
structure Optimizer where
  kind : OptimizerKind
  lr : ℚ
  params : List ℚ
deriving DecidableEq

/-- `SRResNet.configure_optimizers()`:
`return torch.optim.Adam(self.srresnet.parameters(), lr=self.hparams.learning_rate)`.
The return type is a single optimizer object, not a collection. -/
def SRResNet.configure_optimizers (m : SRResNet) : Optimizer :=
  { kind := OptimizerKind.adam, lr := m.hparams.learning_rate,
    params := m.srresnet.parameters }

/-- The parsed command-line option values `cli_main` consumes: its own
`--log_interval`, the three model options, the orchestrator-contributed
`--max_epochs`, and the remaining options contributed by the dataset adapter
and the orchestrator (kept abstract as name/value pairs). -/
structure Args where
  log_interval : ℕ
  image_channels : ℕ
  feature_maps : ℕ
  learning_rate : ℚ
  max_epochs : ℕ
  extra : List (String × ℚ)

/-- The keyword options beyond the three the model constructor names:
`SRResNet(**vars(args))` passes every parsed option, so `log_interval`,
`max_epochs` and all remaining options arrive through `**kwargs`. -/
def Args.kwargs (args : Args) : List (String × ℚ) :=
  ("log_interval", (args.log_interval : ℚ)) ::
    ("max_epochs", (args.max_epochs : ℚ)) :: args.extra

/-- One observable action of `cli_main`, in program order. -/
inductive Event where
  | seed (value : ℕ)
  | addArgument (name : String)
  | addDataModuleArgs
  | addTrainerArgs
  | addModelArgs
  | parseArgs
  | constructModel
  | constructDataModule
  | constructTrainer
  | fit
  | save (filename : String) (artifact : SRGANGenerator)
deriving DecidableEq

/-- The artifact filename the driver writes:
`srresnet-epoch=` max_epochs `-step=` global_step `.pt`. -/
def saveFilename (max_epochs global_step : ℕ) : String :=
  "srresnet-epoch=" ++ toString max_epochs ++ "-step=" ++
    toString global_step ++ ".pt"

/-- `cli_main(args)`: seeds the global random state with
`pl.seed_everything(1234)`, builds one argument parser by adding
`--log_interval`, then the dataset-adapter options, the orchestrator options
and the model options, parses, constructs the model adapter from every parsed
option (`SRResNet(**vars(args))`), the dataset adapter, and the orchestrator,
calls `trainer.fit(model, dm)` (external: modelled as the function `fit`,
which returns the trained adapter — the orchestrator mutates the owned
network's parameters in place — together with the final
`trainer.global_step`), and finally writes
`torch.save(model.srresnet, ...)` under `saveFilename`.  The value is the
ordered trace of the observable actions. -/
def cli_main (C : Components) (fit : SRResNet → SRResNet × ℕ) (args : Args) :
    List Event :=
  let model := SRResNet.init C args.image_channels args.feature_maps
    args.learning_rate args.kwargs
  let fitted := fit model
  [Event.seed 1234,
   Event.addArgument ("log_interval"),
   Event.addDataModuleArgs,
   Event.addTrainerArgs,
   Event.addModelArgs,
   Event.parseArgs,
   Event.constructModel,
   Event.constructDataModule,
   Event.constructTrainer,
   Event.fit,
   Event.save (saveFilename args.max_epochs fitted.2) fitted.1.srresnet]

/-- The artifact writes of a trace: each save action's filename and payload. -/
def savesOf (tr : List Event) : List (String × SRGANGenerator) :=
  tr.filterMap fun e =>
    match e with
    | Event.save f a => some (f, a)
    | _ => none

/-- The export list of `pl_bolts/datamodules/__init__.py`, in source order. -/
def datamodulesExports : List String :=
  ["LightningDataModule", "ImagenetDataModule", "CIFAR10DataModule",
   "MNISTDataModule", "STL10DataModule", "SklearnDataset", "SklearnDataModule"]

/-- The catalog exactly as the spec's words claim it (refinement target, taken
from the spec, not from the source): the ImageNet, CIFAR-10, MNIST and STL-10
dataset adapters and the generic tabular/array adapter. -/
def claimedCatalog : List String :=
  ["ImagenetDataModule", "CIFAR10DataModule", "MNISTDataModule",
   "STL10DataModule", "SklearnDataModule"]

/-- The mean-squared error of a tensor against itself is zero. -/
theorem mse_loss_self (l : List ℚ) : mse_loss l l = 0 := by
  unfold mse_loss
  have h : List.zipWith (fun a b => (a - b) ^ 2) l l =
      List.replicate l.length (0 : ℚ) := by
    induction l with
    | nil => rfl
    | cons x xs ih => simp [List.zipWith, ih, List.replicate]
  rw [h]
  simp

/-- Claim C1: for every batch that is a pair `(hr_image, lr_image)` and every
batch index, `training_step` unpacks the pair, applies `forward` to the
low-res member, computes the mean-squared error of the high-res member against
the forward output, emits that scalar once as a metric named "loss" aggregated
both per step and per epoch, and returns that same scalar. -/
theorem C1_training_step_spec (C : Components) (m : SRResNet)
    (hr_image lr_image : List ℚ) (batch_idx : ℕ) :
    (m.training_step C (hr_image, lr_image) batch_idx).1
        = mse_loss hr_image (m.forward C lr_image).1
    ∧ (m.training_step C (hr_image, lr_image) batch_idx).2.1
        = [{ name := "loss",
             value := mse_loss hr_image (m.forward C lr_image).1,
             on_step := true, on_epoch := true }] :=
  ⟨rfl, rfl⟩

/-- A concrete components instantiation for counterexample runs: no
parameters, and a network that adds one to every entry (so its output never
equals its input on a nonzero-length tensor). -/
def C2ex : Components where
  initParams := fun _ _ => []
  runNet := fun _ _ _ x => x.map (fun a => a + 1)

/-- Claim C2 counterexample: with the generator of `C2ex`, take
`Y = forward([0])` and call `training_step` on `batch = (Y, Y)`.  The step
applies `forward` to the low-res member again, so the loss is
`mse_loss(Y, forward(Y))`, which is 1, not 0. -/
theorem C2_counterexample :
    ((SRResNet.init C2ex 3 64 1 []).training_step C2ex
        (((SRResNet.init C2ex 3 64 1 []).forward C2ex [0]).1,
         ((SRResNet.init C2ex 3 64 1 []).forward C2ex [0]).1) 0).1 ≠ 0 := by
  show mse_loss _ _ ≠ 0
  norm_num [SRResNet.init, SRResNet.forward, SRGANGenerator.run, C2ex,
    mse_loss]

/-- Claim C2 amended: for any input tensor `X`, calling `training_step` on
`batch = (forward(X), X)` — the precomputed forward output as the high-res
member and `X` itself as the low-res member — returns a loss of exactly 0,
because `training_step` applies `forward` to the low-res member, making target
and output identical. -/
theorem C2_amended (C : Components) (m : SRResNet) (X : List ℚ)
    (batch_idx : ℕ) :
    (m.training_step C ((m.forward C X).1, X) batch_idx).1 = 0 := by
  show mse_loss (m.forward C X).1 (m.forward C X).1 = 0
  exact mse_loss_self _

/-- Claim C3: the trace of `cli_main` contains exactly one artifact write;
its filename is `srresnet-epoch=<max_epochs>-step=<global_step>.pt` with the
configured max-epoch option and the orchestrator's final global step count,
its payload is the trained generator network, and it is the last action of
the run, coming after the `fit` call. -/
theorem C3_single_save (C : Components) (fit : SRResNet → SRResNet × ℕ)
    (args : Args) :
    savesOf (cli_main C fit args)
      = [(saveFilename args.max_epochs
            (fit (SRResNet.init C args.image_channels args.feature_maps
                    args.learning_rate args.kwargs)).2,
          (fit (SRResNet.init C args.image_channels args.feature_maps
                    args.learning_rate args.kwargs)).1.srresnet)]
    ∧ (cli_main C fit args).getLast?
      = some (Event.save
          (saveFilename args.max_epochs
            (fit (SRResNet.init C args.image_channels args.feature_maps
                    args.learning_rate args.kwargs)).2)
          (fit (SRResNet.init C args.image_channels args.feature_maps
                    args.learning_rate args.kwargs)).1.srresnet)
    ∧ Event.fit ∈ (cli_main C fit args).dropLast := by
  refine ⟨rfl, rfl, ?_⟩
  simp [cli_main]

/-- A concrete components instantiation for the C4 counterexample run. -/
def C4ex : Components where
  initParams := fun ic fm => List.replicate (ic + fm) 0
  runNet := fun _ _ _ x => x

/-- A concrete orchestrator for the C4 counterexample: training leaves the
adapter as built and ends at global step 7. -/
def fitEx : SRResNet → SRResNet × ℕ :=
  fun m => (m, 7)

/-- A parsed option set that varies only in its learning rate. -/
def argsLr (lr : ℚ) : Args where
  log_interval := 1000
  image_channels := 3
  feature_maps := 64
  learning_rate := lr
  max_epochs := 5
  extra := []

/-- Claim C4 counterexample: two runs of `cli_main` identical except for the
learning-rate hyperparameter produce identical persisted artifacts (the saved
payload is `model.srresnet`, the generator network alone), so the
hyperparameter set is not serialized alongside the saved weights in the
persisted artifact. -/
theorem C4_counterexample :
    (argsLr 1).learning_rate ≠ (argsLr 2).learning_rate
    ∧ savesOf (cli_main C4ex fitEx (argsLr 1))
        = savesOf (cli_main C4ex fitEx (argsLr 2)) := by
  exact ⟨by norm_num [argsLr], rfl⟩

/-- Claim C4 amended, part chained through the trace: provided the
orchestrator's `fit` mutates only the owned network's parameters (the spec's
single mutation channel), the recorded hyperparameter set of the constructed
adapter is exactly the three options fixed at construction, and the persisted
artifact is the generator network alone — its two size options and its
trained parameters; the learning rate is not part of the artifact. -/
theorem C4_amended (C : Components) (fit : SRResNet → SRResNet × ℕ)
    (args : Args) (trainedParams : List ℚ)
    (hfit : ∀ m : SRResNet, (fit m).1
        = { m with srresnet := { m.srresnet with params := trainedParams } }) :
    (SRResNet.init C args.image_channels args.feature_maps args.learning_rate
        args.kwargs).hparams
      = { image_channels := args.image_channels,
          feature_maps := args.feature_maps,
          learning_rate := args.learning_rate }
    ∧ savesOf (cli_main C fit args)
      = [(saveFilename args.max_epochs
            (fit (SRResNet.init C args.image_channels args.feature_maps
                    args.learning_rate args.kwargs)).2,
          { image_channels := args.image_channels,
            feature_maps := args.feature_maps,
            params := trainedParams })] := by
  refine ⟨rfl, ?_⟩
  simp [savesOf, cli_main, hfit, SRResNet.init]

/-- A concrete orchestrator that overwrites the owned network's parameters
with a fixed trained value and ends at global step 7. -/
def fitW : SRResNet → SRResNet × ℕ :=
  fun m => ({ m with srresnet := { m.srresnet with params := [1, 2] } }, 7)

/-- Witness for `C4_amended` at the concrete run
(`C4ex`, `fitW`, `argsLr 1`, trained parameters `[1, 2]`). -/
theorem C4_amended_witness :
    (SRResNet.init C4ex 3 64 1 ((argsLr 1).kwargs)).hparams
      = { image_channels := 3, feature_maps := 64, learning_rate := 1 }
    ∧ savesOf (cli_main C4ex fitW (argsLr 1))
      = [(saveFilename 5 7,
          { image_channels := 3, feature_maps := 64, params := [1, 2] })] :=
  C4_amended C4ex fitW (argsLr 1) [1, 2] (fun _ => rfl)

/-- Claim C5: `configure_optimizers` returns exactly one optimizer (its
return type is a single optimizer object), of the adaptive-moment (Adam)
variant, configured with the declared learning-rate hyperparameter, and its
parameter set is exactly the owned generator network's parameter set. -/
theorem C5_configure_optimizers (m : SRResNet) :
    m.configure_optimizers.kind = OptimizerKind.adam
    ∧ m.configure_optimizers.lr = m.hparams.learning_rate
    ∧ m.configure_optimizers.params = m.srresnet.parameters :=
  ⟨rfl, rfl, rfl⟩

/-- Claim C6: `forward` returns exactly the owned generator network applied
to the input, and leaves the whole adapter state — hyperparameters and owned
network — unchanged; it performs no other effect. -/
theorem C6_forward_pure (C : Components) (m : SRResNet) (x : List ℚ) :
    (m.forward C x).1 = m.srresnet.run C x ∧ (m.forward C x).2 = m :=
  ⟨rfl, rfl⟩

/-- Claim C7: in every run of `cli_main`, the very first action is seeding
the global random state with the fixed constant 1234, and all parser-building
actions, the parse, and the construction of the model adapter, dataset
adapter and orchestrator come strictly after it. -/
theorem C7_seed_first (C : Components) (fit : SRResNet → SRResNet × ℕ)
    (args : Args) :
    (cli_main C fit args).head? = some (Event.seed 1234)
    ∧ Event.addArgument ("log_interval") ∈ (cli_main C fit args).tail
    ∧ Event.addDataModuleArgs ∈ (cli_main C fit args).tail
    ∧ Event.addTrainerArgs ∈ (cli_main C fit args).tail
    ∧ Event.addModelArgs ∈ (cli_main C fit args).tail
    ∧ Event.parseArgs ∈ (cli_main C fit args).tail
    ∧ Event.constructModel ∈ (cli_main C fit args).tail
    ∧ Event.constructDataModule ∈ (cli_main C fit args).tail
    ∧ Event.constructTrainer ∈ (cli_main C fit args).tail := by
  refine ⟨rfl, ?_, ?_, ?_, ?_, ?_, ?_, ?_, ?_⟩ <;> simp [cli_main]

/-- Claim C8 counterexample: the datamodule package namespace re-exports
`LightningDataModule`, which is not one of the five classes of the claimed
catalog, so the export list is not exactly that catalog. -/
theorem C8_counterexample :
    "LightningDataModule" ∈ datamodulesExports
    ∧ "LightningDataModule" ∉ claimedCatalog := by
  constructor
  · simp [datamodulesExports]
  · simp [claimedCatalog]

/-- Claim C8 amended: the datamodule package namespace re-exports exactly the
claimed five-class catalog plus two further names — the `LightningDataModule`
base class and the `SklearnDataset` class — and contains no logic beyond
these re-exports (the module is nothing but its export list). -/
theorem C8_amended :
    datamodulesExports.Perm
      ("LightningDataModule" :: "SklearnDataset" :: claimedCatalog) := by
  simp [datamodulesExports, claimedCatalog]
  exact @List.perm_middle String ("SklearnDataset")
    ["ImagenetDataModule", "CIFAR10DataModule", "MNISTDataModule",
     "STL10DataModule"] ["SklearnDataModule"]

/-- Claim C9: the batch index has no influence on `training_step`: for the
same adapter state and batch, any two batch indices give the same loss, the
same emitted metrics, and the same final state. -/
theorem C9_batch_idx_irrelevant (C : Components) (m : SRResNet)
    (batch : List ℚ × List ℚ) (i j : ℕ) :
    m.training_step C batch i = m.training_step C batch j :=
  rfl

/-- Claim C10: constructing the model adapter with any extra keyword options
beyond the three named ones yields exactly the adapter built without them —
the extras are accepted by `**kwargs` and ignored; in particular the adapter
`cli_main` builds from the full parsed option set (`SRResNet(**vars(args))`,
including `log_interval` and every orchestrator option) equals the adapter
built from the three model options alone. -/
theorem C10_extra_kwargs_ignored (C : Components) (ic fm : ℕ) (lr : ℚ)
    (kwargs : List (String × ℚ)) (args : Args) :
    SRResNet.init C ic fm lr kwargs = SRResNet.init C ic fm lr []
    ∧ SRResNet.init C args.image_channels args.feature_maps
        args.learning_rate args.kwargs
      = SRResNet.init C args.image_channels args.feature_maps
        args.learning_rate [] :=
  ⟨rfl, rfl⟩

end SRGAN
